import Mathlib

/-!
Verification of the connection-controller core of the `pantapita/postgres`
client library against its specification. The repository ships only the
test suite (`tests/connection_test.ts`); the connection controller itself
(`connection.ts` / `mod.ts`) is not among the sources, so every definition
below is modelled from the specification's words (§3–§8 of the spec) and
carries a doc comment saying so.
-/

namespace Postgres

/-- Modelled from the spec: the error taxonomy of §7 (the connection
controller sources are missing from the repository snapshot). Each
constructor is one distinguishable error kind; message-bearing kinds carry
their human-readable message. -/
inductive ConnErr where
  | transportOpen : ConnErr
  | transportIo : ConnErr
  | tlsAvailability (msg : String) : ConnErr
  | tlsHandshake (invalid_certificate : Bool) (msg : String) : ConnErr
  | postgres (msg : String) : ConnErr
  | authenticationErr (msg : String) : ConnErr
  | unsupportedAuthMethod : ConnErr
  | connectionError (msg : String) : ConnErr
  | clientDisconnected (msg : String) : ConnErr
deriving DecidableEq, Repr

/-- Modelled from the spec (§4.F): which errors the connect() retry loop
retries on. "Retries only on TransportOpenError, TransportIoError, and
TlsAvailabilityError." -/
def retryEligible : ConnErr → Bool
  | .transportOpen => true
  | .transportIo => true
  | .tlsAvailability _ => true
  | _ => false

/-- Modelled from the spec (§4.F): the retry loop of connect(), missing
from the repository snapshot. `env i` is the outcome of the i-th
connection attempt (each attempt opens a fresh transport); `rem` is the
number of retries still allowed after the current attempt. On a
retry-eligible failure with retries remaining it tries again, otherwise
it surfaces the error; "if all attempts fail, surface the LAST error". -/
def connectRetry {α : Type} (env : Nat → Except ConnErr α) : Nat → Nat → Except ConnErr α
  | i, 0 => env i
  | i, rem + 1 =>
    match env i with
    | .ok a => .ok a
    | .error e => if retryEligible e then connectRetry env (i + 1) rem else .error e

/-- Modelled from the spec (§4.F): connect() under the retry policy.
"Total attempt count = max(1, attempts)", so after the mandatory first
try there are `max 1 attempts - 1` retries left. -/
def connect {α : Type} (attempts : Nat) (env : Nat → Except ConnErr α) : Except ConnErr α :=
  connectRetry env 0 (max 1 attempts - 1)

/-- Modelled from the spec (§4.F): how many connection attempts
`connectRetry env i rem` makes before returning. -/
def connectRetryCount {α : Type} (env : Nat → Except ConnErr α) : Nat → Nat → Nat
  | _, 0 => 1
  | i, rem + 1 =>
    match env i with
    | .ok _ => 1
    | .error e => if retryEligible e then 1 + connectRetryCount env (i + 1) rem else 1

/-- Modelled from the spec (§4.F): total number of connection attempts
made by `connect attempts env`. -/
def connectAttemptCount {α : Type} (attempts : Nat) (env : Nat → Except ConnErr α) : Nat :=
  connectRetryCount env 0 (max 1 attempts - 1)

lemma connectRetry_all_fail {α : Type} (env : Nat → Except ConnErr α) (e : Nat → ConnErr)
    (hfail : ∀ i, env i = Except.error (e i))
    (helig : ∀ i, retryEligible (e i) = true) :
    ∀ rem i, connectRetryCount env i rem = rem + 1 ∧
      connectRetry env i rem = Except.error (e (i + rem)) := by
  intro rem
  induction rem with
  | zero =>
    intro i
    simp [connectRetryCount, connectRetry, hfail i]
  | succ n ih =>
    intro i
    have h1 := hfail i
    have h2 := helig i
    constructor
    · simp only [connectRetryCount, h1, h2, if_true]
      have := (ih (i + 1)).1
      omega
    · simp only [connectRetry, h1, h2, if_true]
      have h3 := (ih (i + 1)).2
      rw [h3, show i + 1 + n = i + (n + 1) by omega]

lemma connectRetry_first_no_retry {α : Type} (env : Nat → Except ConnErr α) (e : ConnErr)
    (h0 : env 0 = Except.error e) (hne : retryEligible e = false) :
    ∀ rem, connectRetryCount env 0 rem = 1 ∧ connectRetry env 0 rem = Except.error e := by
  intro rem
  cases rem with
  | zero => simp [connectRetryCount, connectRetry, h0]
  | succ n => simp [connectRetryCount, connectRetry, h0, hne]

lemma connectRetry_first_ok {α : Type} (env : Nat → Except ConnErr α) (a : α)
    (h0 : env 0 = Except.ok a) :
    ∀ rem, connectRetry env 0 rem = Except.ok a := by
  intro rem
  cases rem with
  | zero => simp [connectRetry, h0]
  | succ n => simp [connectRetry, h0]

/-- C1. For every retry-eligible failure (TransportOpenError,
TransportIoError, TlsAvailabilityError), connect() with
connection.attempts = N makes exactly max(1, N) connection attempts and
surfaces the last error (attempts = 0 still tries once; attempts = N ≥ 1
tries N times); it never retries on PostgresError,
TlsHandshakeError{invalid_certificate}, or
UnsupportedAuthenticationMethod (one single attempt is made). -/
theorem connect_retry_policy {α : Type} (N : Nat)
    (env : Nat → Except ConnErr α) (e : Nat → ConnErr)
    (hfail : ∀ i, env i = Except.error (e i))
    (helig : ∀ i, retryEligible (e i) = true)
    (env' : Nat → Except ConnErr α) (e' : ConnErr)
    (h0 : env' 0 = Except.error e')
    (hne : retryEligible e' = false) :
    (connectAttemptCount N env = max 1 N ∧
      connect N env = Except.error (e (max 1 N - 1))) ∧
    (connectAttemptCount N env' = 1 ∧ connect N env' = Except.error e') ∧
    (retryEligible ConnErr.transportOpen = true ∧
      retryEligible ConnErr.transportIo = true ∧
      (∀ m, retryEligible (ConnErr.tlsAvailability m) = true)) ∧
    ((∀ m, retryEligible (ConnErr.postgres m) = false) ∧
      (∀ m, retryEligible (ConnErr.tlsHandshake true m) = false) ∧
      retryEligible ConnErr.unsupportedAuthMethod = false) := by
  refine ⟨⟨?_, ?_⟩, ⟨?_, ?_⟩, ⟨rfl, rfl, fun m => rfl⟩, ⟨fun m => rfl, fun m => rfl, rfl⟩⟩
  · have := (connectRetry_all_fail env e hfail helig (max 1 N - 1) 0).1
    unfold connectAttemptCount
    rw [this]
    omega
  · have h := (connectRetry_all_fail env e hfail helig (max 1 N - 1) 0).2
    unfold connect
    rw [h, Nat.zero_add]
  · exact (connectRetry_first_no_retry env' e' h0 hne (max 1 N - 1)).1
  · exact (connectRetry_first_no_retry env' e' h0 hne (max 1 N - 1)).2

/-- Witness for C1 at concrete inputs: an environment failing every
attempt with TransportOpenError, `attempts = 3`, against one failing
immediately with a PostgresError. -/
theorem connect_retry_policy_witness :
    (connectAttemptCount 3 (fun _ => (Except.error ConnErr.transportOpen : Except ConnErr Nat)) = max 1 3 ∧
      connect 3 (fun _ => (Except.error ConnErr.transportOpen : Except ConnErr Nat)) =
        Except.error ConnErr.transportOpen) ∧
    (connectAttemptCount 3 (fun _ => (Except.error (ConnErr.postgres "password authentication failed for user") : Except ConnErr Nat)) = 1 ∧
      connect 3 (fun _ => (Except.error (ConnErr.postgres "password authentication failed for user") : Except ConnErr Nat)) =
        Except.error (ConnErr.postgres "password authentication failed for user")) ∧
    (retryEligible ConnErr.transportOpen = true ∧
      retryEligible ConnErr.transportIo = true ∧
      (∀ m, retryEligible (ConnErr.tlsAvailability m) = true)) ∧
    ((∀ m, retryEligible (ConnErr.postgres m) = false) ∧
      (∀ m, retryEligible (ConnErr.tlsHandshake true m) = false) ∧
      retryEligible ConnErr.unsupportedAuthMethod = false) :=
  connect_retry_policy 3
    (fun _ => Except.error ConnErr.transportOpen) (fun _ => ConnErr.transportOpen)
    (fun _ => rfl) (fun _ => rfl)
    (fun _ => Except.error (ConnErr.postgres "password authentication failed for user"))
    (ConnErr.postgres "password authentication failed for user") rfl rfl

/-- Modelled from the spec (§3): the observable Session owned by the
Controller. Fields are `unset` (`none`) when not connected. -/
structure Session where
  pid : Option Nat
  secret_key : Option Nat
  tls : Option Bool
  server_params : List (String × String)
deriving DecidableEq, Repr

/-- The empty Session: every field unset, as at client construction and
after a transition to Disconnected. -/
def Session.empty : Session := ⟨none, none, none, []⟩

/-- Modelled from the spec (§3, §4.D): the server-side backend process a
session is attached to; BackendKeyData carries its pid and secret key,
ParameterStatus messages its parameters. -/
structure Backend where
  pid : Nat
  secret_key : Nat
  params : List (String × String)
deriving DecidableEq, Repr

/-- Modelled from the spec (§4.D stage 3): the Session published after a
successful startup handshake over backend `b`, with `tls` as negotiated. -/
def startupSession (b : Backend) (tlsFlag : Bool) : Session :=
  ⟨some b.pid, some b.secret_key, some tlsFlag, b.params⟩

/-- Modelled from the spec (§6): the public client surface — `connected`
flag, observable `session`, and (internally) the backend serving the
session, if any. The controller sources are missing from the snapshot. -/
structure Client where
  connected : Bool
  session : Session
  backend : Option Backend
deriving DecidableEq, Repr

/-- A freshly connected client over backend `b` (§4.D stage 3:
"Set connected = true atomically with publishing session"). -/
def clientFromBackend (b : Backend) (tlsFlag : Bool) : Client :=
  ⟨true, startupSession b tlsFlag, some b⟩

/-- The disconnected client state: session cleared, no backend. -/
def disconnectedClient : Client := ⟨false, Session.empty, none⟩

/-- Modelled from the spec (§4.F): end() — clear session and set
connected = false (after best-effort Terminate and transport close,
which have no observable client state beyond this). -/
def endClient (_c : Client) : Client := disconnectedClient

/-- Modelled from the spec (§4.A): outcome of an attempted TLS upgrade —
success, failure with an invalid/untrusted certificate, or a broken
transport. -/
inductive TlsUpgradeOutcome where
  | ok : TlsUpgradeOutcome
  | invalidCertificate : TlsUpgradeOutcome
  | ioFailure : TlsUpgradeOutcome
deriving DecidableEq, Repr

/-- Modelled from the spec (§3): the `tls` part of ConnectionOptions. -/
structure TlsOptions where
  enabled : Bool
  enforce : Bool
deriving DecidableEq, Repr

/-- Modelled from the spec (§4.D stage 1): the environment one connection
attempt runs against — the single byte the peer answers to SSLRequest
(`none` = EOF/unreadable), what a TLS upgrade would do, and what the
startup/authentication stages would yield. -/
structure AttemptEnv where
  sslResponse : Option Nat
  upgrade : TlsUpgradeOutcome
  startup : Except ConnErr Backend
deriving Repr

/-- §4.F / §7 error message for a TLS handshake failing on an invalid
certificate. -/
def tlsInvalidCertMsg : String :=
  "The certificate used to secure the TLS connection is invalid"

/-- §4.D / §7 message prefix when the SSLRequest answer is unusable. -/
def tlsAvailabilityMsg : String :=
  "Could not check if server accepts SSL connections"

/-- Outcome of the TLS negotiation stage: either an error or the `tls`
flag for the session, together with whether an SSLRequest was sent. -/
structure NegotiationOutcome where
  result : Except ConnErr Bool
  sslRequestSent : Bool
deriving Repr

/-- Modelled from the spec (§4.D stage 1): TLS negotiation. If
tls.enabled is false the stage is skipped and session.tls will be false.
Otherwise SSLRequest is sent and the one-byte answer dispatched:
'S' (83) → upgrade (invalid certificate aborts iff tls.enforce,
otherwise a fresh plaintext transport is reopened and tls = false);
'N' (78) → refuse (abort iff tls.enforce, else tls = false); any other
byte or EOF → TlsAvailabilityError. The spec does not name the error
type for 'N' under enforce beyond "abort"; it is modelled as a
non-retry-eligible TLS handshake error. -/
def tlsNegotiate (tls : TlsOptions) (env : AttemptEnv) : NegotiationOutcome :=
  if tls.enabled then
    match env.sslResponse with
    | some b =>
      if b = 83 then
        match env.upgrade with
        | .ok => ⟨.ok true, true⟩
        | .invalidCertificate =>
          if tls.enforce then ⟨.error (.tlsHandshake true tlsInvalidCertMsg), true⟩
          else ⟨.ok false, true⟩
        | .ioFailure => ⟨.error .transportIo, true⟩
      else if b = 78 then
        if tls.enforce then
          ⟨.error (.tlsHandshake false "The server does not accept TLS connections"), true⟩
        else ⟨.ok false, true⟩
      else ⟨.error (.tlsAvailability tlsAvailabilityMsg), true⟩
    | none => ⟨.error (.tlsAvailability tlsAvailabilityMsg), true⟩
  else ⟨.ok false, false⟩

/-- Outcome of one whole connection attempt: the negotiated backend and
tls flag or the error, whether SSLRequest was sent, and whether the
transport ended up closed. -/
structure AttemptOutcome where
  result : Except ConnErr (Backend × Bool)
  sslRequestSent : Bool
  transportClosed : Bool
deriving Repr

/-- Modelled from the spec (§4.D): one connection attempt — TLS
negotiation, then startup/authentication until ReadyForQuery. On every
failure the controller closes the transport (the tests observe the
server seeing the connection closed). -/
def attemptConnect (tls : TlsOptions) (env : AttemptEnv) : AttemptOutcome :=
  let neg := tlsNegotiate tls env
  match neg.result with
  | .error e => ⟨.error e, neg.sslRequestSent, true⟩
  | .ok tlsFlag =>
    match env.startup with
    | .error e => ⟨.error e, neg.sslRequestSent, true⟩
    | .ok b => ⟨.ok (b, tlsFlag), neg.sslRequestSent, false⟩

/-- Modelled from the spec (§4.F): client-level connect() — run the
attempt under the retry loop; on success publish the session, on failure
leave the client disconnected with the session cleared. -/
def connectClient (tls : TlsOptions) (attempts : Nat) (envs : Nat → AttemptEnv) :
    Client × Except ConnErr Unit :=
  match connect attempts (fun i => (attemptConnect tls (envs i)).result) with
  | .ok (b, f) => (clientFromBackend b f, .ok ())
  | .error e => (disconnectedClient, .error e)

/-- C6. With tls.enabled and tls.enforce both true, a TLS handshake
failing on an invalid/untrusted certificate makes connect() abort with
an error carrying the message "The certificate used to secure the TLS
connection is invalid", and session.tls stays unset afterwards. -/
theorem connect_invalid_cert_enforced (attempts : Nat) (envs : Nat → AttemptEnv)
    (hssl : (envs 0).sslResponse = some 83)
    (hup : (envs 0).upgrade = TlsUpgradeOutcome.invalidCertificate) :
    (connectClient ⟨true, true⟩ attempts envs).2 =
      Except.error (ConnErr.tlsHandshake true tlsInvalidCertMsg) ∧
    tlsInvalidCertMsg = "The certificate used to secure the TLS connection is invalid" ∧
    (connectClient ⟨true, true⟩ attempts envs).1.session.tls = none ∧
    (connectClient ⟨true, true⟩ attempts envs).1.connected = false := by
  have hatt : (attemptConnect ⟨true, true⟩ (envs 0)).result =
      Except.error (ConnErr.tlsHandshake true tlsInvalidCertMsg) := by
    simp [attemptConnect, tlsNegotiate, hssl, hup]
  have hc := connectRetry_first_no_retry
    (fun i => (attemptConnect ⟨true, true⟩ (envs i)).result)
    (ConnErr.tlsHandshake true tlsInvalidCertMsg) hatt rfl (max 1 attempts - 1)
  have : connectClient ⟨true, true⟩ attempts envs =
      (disconnectedClient, Except.error (ConnErr.tlsHandshake true tlsInvalidCertMsg)) := by
    simp [connectClient, connect, hc.2]
  rw [this]
  exact ⟨rfl, rfl, rfl, rfl⟩

/-- Witness for C6: a concrete environment whose peer answers 'S' and
whose handshake fails on an invalid certificate. -/
theorem connect_invalid_cert_enforced_witness :
    (connectClient ⟨true, true⟩ 3
        (fun _ => ⟨some 83, TlsUpgradeOutcome.invalidCertificate, Except.ok ⟨100, 7, []⟩⟩)).2 =
      Except.error (ConnErr.tlsHandshake true tlsInvalidCertMsg) ∧
    tlsInvalidCertMsg = "The certificate used to secure the TLS connection is invalid" ∧
    (connectClient ⟨true, true⟩ 3
        (fun _ => ⟨some 83, TlsUpgradeOutcome.invalidCertificate, Except.ok ⟨100, 7, []⟩⟩)).1.session.tls = none ∧
    (connectClient ⟨true, true⟩ 3
        (fun _ => ⟨some 83, TlsUpgradeOutcome.invalidCertificate, Except.ok ⟨100, 7, []⟩⟩)).1.connected = false :=
  connect_invalid_cert_enforced 3
    (fun _ => ⟨some 83, TlsUpgradeOutcome.invalidCertificate, Except.ok ⟨100, 7, []⟩⟩)
    rfl rfl

/-- C7. With tls.enabled true and tls.enforce false, an invalid server
certificate makes connect() fall back to a fresh plaintext transport and
succeed, with session.tls = false afterwards. -/
theorem connect_invalid_cert_fallback (attempts : Nat) (envs : Nat → AttemptEnv) (b : Backend)
    (hssl : (envs 0).sslResponse = some 83)
    (hup : (envs 0).upgrade = TlsUpgradeOutcome.invalidCertificate)
    (hst : (envs 0).startup = Except.ok b) :
    (connectClient ⟨true, false⟩ attempts envs).2 = Except.ok () ∧
    (connectClient ⟨true, false⟩ attempts envs).1.connected = true ∧
    (connectClient ⟨true, false⟩ attempts envs).1.session.tls = some false := by
  have hatt : (attemptConnect ⟨true, false⟩ (envs 0)).result = Except.ok (b, false) := by
    simp [attemptConnect, tlsNegotiate, hssl, hup, hst]
  have hc := connectRetry_first_ok
    (fun i => (attemptConnect ⟨true, false⟩ (envs i)).result) (b, false) hatt
    (max 1 attempts - 1)
  have : connectClient ⟨true, false⟩ attempts envs = (clientFromBackend b false, Except.ok ()) := by
    simp [connectClient, connect, hc]
  rw [this]
  exact ⟨rfl, rfl, rfl⟩

/-- Witness for C7: a concrete environment with an invalid certificate,
enforce off, and a startup that succeeds over the reopened plaintext
transport. -/
theorem connect_invalid_cert_fallback_witness :
    (connectClient ⟨true, false⟩ 1
        (fun _ => ⟨some 83, TlsUpgradeOutcome.invalidCertificate, Except.ok ⟨42, 9, []⟩⟩)).2 =
      Except.ok () ∧
    (connectClient ⟨true, false⟩ 1
        (fun _ => ⟨some 83, TlsUpgradeOutcome.invalidCertificate, Except.ok ⟨42, 9, []⟩⟩)).1.connected = true ∧
    (connectClient ⟨true, false⟩ 1
        (fun _ => ⟨some 83, TlsUpgradeOutcome.invalidCertificate, Except.ok ⟨42, 9, []⟩⟩)).1.session.tls = some false :=
  connect_invalid_cert_fallback 1
    (fun _ => ⟨some 83, TlsUpgradeOutcome.invalidCertificate, Except.ok ⟨42, 9, []⟩⟩)
    ⟨42, 9, []⟩ rfl rfl rfl

/-- C8. When the peer's answer to SSLRequest is any byte other than 'S'
(83) or 'N' (78), or EOF/unreadable, the attempt fails with a
TlsAvailabilityError whose message begins "Could not check if server
accepts SSL connections", and the transport is closed. -/
theorem attempt_bad_ssl_answer (tls : TlsOptions) (env : AttemptEnv)
    (hen : tls.enabled = true)
    (hbad : env.sslResponse = none ∨
      ∃ b, env.sslResponse = some b ∧ b ≠ 83 ∧ b ≠ 78) :
    (attemptConnect tls env).result = Except.error (ConnErr.tlsAvailability tlsAvailabilityMsg) ∧
    (attemptConnect tls env).transportClosed = true ∧
    "Could not check if server accepts SSL connections".data.isPrefixOf tlsAvailabilityMsg.data = true ∧
    retryEligible (ConnErr.tlsAvailability tlsAvailabilityMsg) = true := by
  rcases hbad with hnone | ⟨b, hb, hS, hN⟩
  · refine ⟨?_, ?_, by decide, rfl⟩ <;>
      simp [attemptConnect, tlsNegotiate, hen, hnone]
  · refine ⟨?_, ?_, by decide, rfl⟩ <;>
      simp [attemptConnect, tlsNegotiate, hen, hb, hS, hN]

/-- Witness for C8: the peer answers byte 72 ('H', e.g. an HTTP server)
to the SSLRequest. -/
theorem attempt_bad_ssl_answer_witness :
    (attemptConnect ⟨true, false⟩ ⟨some 72, TlsUpgradeOutcome.ok, Except.ok ⟨1, 1, []⟩⟩).result =
      Except.error (ConnErr.tlsAvailability tlsAvailabilityMsg) ∧
    (attemptConnect ⟨true, false⟩ ⟨some 72, TlsUpgradeOutcome.ok, Except.ok ⟨1, 1, []⟩⟩).transportClosed = true ∧
    "Could not check if server accepts SSL connections".data.isPrefixOf tlsAvailabilityMsg.data = true ∧
    retryEligible (ConnErr.tlsAvailability tlsAvailabilityMsg) = true :=
  attempt_bad_ssl_answer ⟨true, false⟩ ⟨some 72, TlsUpgradeOutcome.ok, Except.ok ⟨1, 1, []⟩⟩
    rfl (Or.inr ⟨72, rfl, by decide, by decide⟩)

/-- C9. With tls.enabled false the SSLRequest stage is never attempted,
and a successful connect leaves session.tls = false. -/
theorem connect_tls_disabled (tls : TlsOptions) (attempts : Nat) (envs : Nat → AttemptEnv)
    (b : Backend)
    (hen : tls.enabled = false)
    (hst : (envs 0).startup = Except.ok b) :
    (∀ env, (attemptConnect tls env).sslRequestSent = false) ∧
    (connectClient tls attempts envs).2 = Except.ok () ∧
    (connectClient tls attempts envs).1.session.tls = some false := by
  have hskip : ∀ env : AttemptEnv, tlsNegotiate tls env = ⟨Except.ok false, false⟩ := by
    intro env
    simp [tlsNegotiate, hen]
  have hatt : (attemptConnect tls (envs 0)).result = Except.ok (b, false) := by
    simp [attemptConnect, hskip (envs 0), hst]
  have hc := connectRetry_first_ok
    (fun i => (attemptConnect tls (envs i)).result) (b, false) hatt (max 1 attempts - 1)
  have heq : connectClient tls attempts envs = (clientFromBackend b false, Except.ok ()) := by
    simp [connectClient, connect, hc]
  refine ⟨?_, ?_, ?_⟩
  · intro env
    simp only [attemptConnect, hskip env]
    cases h : env.startup <;> simp [h]
  · rw [heq]
  · rw [heq]
    rfl

/-- Witness for C9: tls disabled against an environment that would have
answered the SSLRequest; the stage is skipped and tls is false. -/
theorem connect_tls_disabled_witness :
    (∀ env, (attemptConnect ⟨false, false⟩ env).sslRequestSent = false) ∧
    (connectClient ⟨false, false⟩ 2
        (fun _ => ⟨some 83, TlsUpgradeOutcome.ok, Except.ok ⟨5, 6, []⟩⟩)).2 = Except.ok () ∧
    (connectClient ⟨false, false⟩ 2
        (fun _ => ⟨some 83, TlsUpgradeOutcome.ok, Except.ok ⟨5, 6, []⟩⟩)).1.session.tls = some false :=
  connect_tls_disabled ⟨false, false⟩ 2
    (fun _ => ⟨some 83, TlsUpgradeOutcome.ok, Except.ok ⟨5, 6, []⟩⟩) ⟨5, 6, []⟩ rfl rfl

/-- §4.F / §7 message when a running operation observes the backend
terminating the session. -/
def sessionTerminatedMsg : String := "The session was terminated by the database"

/-- §4.F / §7 message when a user operation is invoked on a
non-connected client with exhausted retries. -/
def clientDisconnectedMsg : String := "The client has been disconnected from the database"

/-- Modelled from the spec (§4.F, §8): the user operations the tests
exercise — querying PG_BACKEND_PID, an operation that makes the backend
terminate the session (PG_TERMINATE_BACKEND on the session's own pid),
and a plain query returning a constant. -/
inductive Operation where
  | queryBackendPid : Operation
  | terminateBackend : Operation
  | queryConst (v : Nat) : Operation
deriving DecidableEq, Repr

/-- Modelled from the spec (§8 scenario 6): executing one operation over
a live backend; `none` means the operation observed the backend
terminating the session mid-operation (EOF / FATAL 57P01).
PG_BACKEND_PID returns the pid of the backend serving the session. -/
def execOp : Operation → Backend → Option Nat
  | .queryBackendPid, b => some b.pid
  | .terminateBackend, _ => none
  | .queryConst v, _ => some v

/-- Outcome of dispatching one user operation: the surfaced result, the
client state afterwards, and how many times the operation was actually
executed against a backend. -/
structure OpOutcome where
  result : Except ConnErr Nat
  state : Client
  executions : Nat
deriving Repr

/-- Modelled from the spec (§4.F): the Connection Controller's dispatch
of a user operation. On a connected client the operation runs once; if
it observes the backend terminating the session the controller marks
connected = false, clears the session, and surfaces
ConnectionError("The session was terminated by the database") without
re-executing the query. On a disconnected client with attempts = 0 it
fails with ClientDisconnected; with attempts ≥ 1 it reconnects first
(a fresh handshake bounded by `attempts`) so the operation sees a fresh
session with the new backend's pid. -/
def dispatchOperation (attempts : Nat) (env : Nat → Except ConnErr (Backend × Bool))
    (c : Client) (op : Operation) : OpOutcome :=
  if c.connected then
    match c.backend with
    | some b =>
      match execOp op b with
      | some v => ⟨.ok v, c, 1⟩
      | none => ⟨.error (.connectionError sessionTerminatedMsg), disconnectedClient, 1⟩
    | none => ⟨.error (.clientDisconnected clientDisconnectedMsg), c, 0⟩
  else if attempts = 0 then
    ⟨.error (.clientDisconnected clientDisconnectedMsg), c, 0⟩
  else
    match connect attempts env with
    | .ok (b, f) =>
      match execOp op b with
      | some v => ⟨.ok v, clientFromBackend b f, 1⟩
      | none => ⟨.error (.connectionError sessionTerminatedMsg), disconnectedClient, 1⟩
    | .error _ => ⟨.error (.clientDisconnected clientDisconnectedMsg), c, 0⟩

/-- Modelled from the spec (§4.F): a serial run of user operations, each
dispatched against the state the previous one left behind. -/
def runOps (attempts : Nat) (env : Nat → Except ConnErr (Backend × Bool)) :
    Client → List Operation → List (Except ConnErr Nat) × Client
  | c, [] => ([], c)
  | c, op :: ops =>
    let o := dispatchOperation attempts env c op
    let rest := runOps attempts env o.state ops
    (o.result :: rest.1, rest.2)

/-- C2. On a connected client with attempts ≥ 1, an operation during
which the backend terminates the session surfaces
ConnectionError("The session was terminated by the database") exactly
once, the query is executed exactly once (not transparently re-run),
and client.connected is false immediately after the error. -/
theorem midop_kill_surfaced_once (attempts : Nat)
    (env : Nat → Except ConnErr (Backend × Bool)) (c : Client) (b : Backend)
    (hc : c.connected = true) (hb : c.backend = some b)
    (_ha : 1 ≤ attempts) :
    (dispatchOperation attempts env c Operation.terminateBackend).result =
      Except.error (ConnErr.connectionError sessionTerminatedMsg) ∧
    (dispatchOperation attempts env c Operation.terminateBackend).executions = 1 ∧
    (dispatchOperation attempts env c Operation.terminateBackend).state.connected = false ∧
    sessionTerminatedMsg = "The session was terminated by the database" := by
  refine ⟨?_, ?_, ?_, rfl⟩ <;>
    simp [dispatchOperation, hc, hb, execOp, disconnectedClient]

/-- Witness for C2: a concrete connected client over backend pid 11,
attempts = 1. -/
theorem midop_kill_surfaced_once_witness :
    (dispatchOperation 1 (fun _ => Except.ok (⟨12, 2, []⟩, true))
        (clientFromBackend ⟨11, 1, []⟩ true) Operation.terminateBackend).result =
      Except.error (ConnErr.connectionError sessionTerminatedMsg) ∧
    (dispatchOperation 1 (fun _ => Except.ok (⟨12, 2, []⟩, true))
        (clientFromBackend ⟨11, 1, []⟩ true) Operation.terminateBackend).executions = 1 ∧
    (dispatchOperation 1 (fun _ => Except.ok (⟨12, 2, []⟩, true))
        (clientFromBackend ⟨11, 1, []⟩ true) Operation.terminateBackend).state.connected = false ∧
    sessionTerminatedMsg = "The session was terminated by the database" :=
  midop_kill_surfaced_once 1 (fun _ => Except.ok (⟨12, 2, []⟩, true))
    (clientFromBackend ⟨11, 1, []⟩ true) ⟨11, 1, []⟩ rfl rfl (by decide)

/-- C3. After a mid-session kill left the client disconnected, with
attempts ≥ 1 the next user operation reconnects and succeeds on a fresh
session: session.pid is repopulated to the new backend's pid, which is
exactly what PG_BACKEND_PID() returns over the new connection. -/
theorem midop_reconnect_new_pid (attempts : Nat)
    (env : Nat → Except ConnErr (Backend × Bool)) (c : Client) (b : Backend) (f : Bool)
    (hc : c.connected = false) (ha : 1 ≤ attempts)
    (henv : env 0 = Except.ok (b, f)) :
    (dispatchOperation attempts env c Operation.queryBackendPid).result = Except.ok b.pid ∧
    (dispatchOperation attempts env c Operation.queryBackendPid).state.session.pid =
      some b.pid ∧
    (dispatchOperation attempts env c Operation.queryBackendPid).state.connected = true := by
  have ha' : attempts ≠ 0 := by omega
  have hcon : connect attempts env = Except.ok (b, f) :=
    connectRetry_first_ok env (b, f) henv (max 1 attempts - 1)
  simp [dispatchOperation, hc, ha', hcon, execOp, clientFromBackend, startupSession]

/-- Witness for C3: a disconnected client reconnecting onto backend
pid 77 with attempts = 1. -/
theorem midop_reconnect_new_pid_witness :
    (dispatchOperation 1 (fun _ => Except.ok (⟨77, 3, []⟩, true))
        disconnectedClient Operation.queryBackendPid).result = Except.ok (77 : Nat) ∧
    (dispatchOperation 1 (fun _ => Except.ok (⟨77, 3, []⟩, true))
        disconnectedClient Operation.queryBackendPid).state.session.pid = some 77 ∧
    (dispatchOperation 1 (fun _ => Except.ok (⟨77, 3, []⟩, true))
        disconnectedClient Operation.queryBackendPid).state.connected = true :=
  midop_reconnect_new_pid 1 (fun _ => Except.ok (⟨77, 3, []⟩, true))
    disconnectedClient ⟨77, 3, []⟩ true rfl (by decide) rfl

lemma runOps_disconnected_zero (env : Nat → Except ConnErr (Backend × Bool))
    (c : Client) (hc : c.connected = false) :
    ∀ ops, runOps 0 env c ops =
      (ops.map fun _ => Except.error (ConnErr.clientDisconnected clientDisconnectedMsg), c) := by
  intro ops
  induction ops with
  | nil => simp [runOps]
  | cons op ops ih => simp [runOps, dispatchOperation, hc, ih]

/-- C4. On a client disconnected mid-session with attempts = 0, every
subsequent user operation fails with the typed ClientDisconnected error
carrying the message "The client has been disconnected from the
database" (and the client stays disconnected). -/
theorem disconnected_zero_attempts (env : Nat → Except ConnErr (Backend × Bool))
    (c : Client) (hc : c.connected = false) (ops : List Operation) :
    (∀ r ∈ (runOps 0 env c ops).1,
      r = Except.error (ConnErr.clientDisconnected clientDisconnectedMsg)) ∧
    (runOps 0 env c ops).1.length = ops.length ∧
    (runOps 0 env c ops).2 = c ∧
    clientDisconnectedMsg = "The client has been disconnected from the database" := by
  have h := runOps_disconnected_zero env c hc ops
  rw [h]
  refine ⟨?_, ?_, rfl, rfl⟩
  · intro r hr
    rcases List.mem_map.mp hr with ⟨op, _, hop⟩
    exact hop.symm
  · simp

/-- Witness for C4: a disconnected client running three operations, all
of which fail with ClientDisconnected. -/
theorem disconnected_zero_attempts_witness :
    (∀ r ∈ (runOps 0 (fun _ => Except.ok (⟨9, 9, []⟩, true)) disconnectedClient
        [Operation.queryConst 1, Operation.queryBackendPid, Operation.queryConst 2]).1,
      r = Except.error (ConnErr.clientDisconnected clientDisconnectedMsg)) ∧
    (runOps 0 (fun _ => Except.ok (⟨9, 9, []⟩, true)) disconnectedClient
        [Operation.queryConst 1, Operation.queryBackendPid, Operation.queryConst 2]).1.length = 3 ∧
    (runOps 0 (fun _ => Except.ok (⟨9, 9, []⟩, true)) disconnectedClient
        [Operation.queryConst 1, Operation.queryBackendPid, Operation.queryConst 2]).2 =
      disconnectedClient ∧
    clientDisconnectedMsg = "The client has been disconnected from the database" :=
  disconnected_zero_attempts (fun _ => Except.ok (⟨9, 9, []⟩, true)) disconnectedClient rfl
    [Operation.queryConst 1, Operation.queryBackendPid, Operation.queryConst 2]

/-- C5. After end() returns, and after a fatal connection error (a
mid-operation kill, or a failed connect()), the whole session is cleared
in the same single state transition in which connected becomes false:
connected = false and pid, secret_key, tls are unset and server_params
empty; end() is moreover idempotent. -/
theorem end_and_fatal_clear_session (c : Client) (tls : TlsOptions) (attempts : Nat)
    (envs : Nat → AttemptEnv) (env : Nat → Except ConnErr (Backend × Bool))
    (b : Backend) (e : ConnErr)
    (hc : c.connected = true) (hb : c.backend = some b)
    (hfail : (connectClient tls attempts envs).2 = Except.error e) :
    ((endClient c).connected = false ∧
      (endClient c).session.pid = none ∧
      (endClient c).session.secret_key = none ∧
      (endClient c).session.tls = none ∧
      (endClient c).session.server_params = []) ∧
    endClient (endClient c) = endClient c ∧
    (dispatchOperation attempts env c Operation.terminateBackend).state =
      disconnectedClient ∧
    (connectClient tls attempts envs).1 = disconnectedClient := by
  refine ⟨⟨rfl, rfl, rfl, rfl, rfl⟩, rfl, ?_, ?_⟩
  · simp [dispatchOperation, hc, hb, execOp]
  · unfold connectClient at hfail ⊢
    cases h : connect attempts fun i => (attemptConnect tls (envs i)).result with
    | ok a => rw [h] at hfail; exact absurd hfail (by simp)
    | error e' => simp

/-- Witness for C5: a connected client over backend pid 21, ended; and a
connect() failing on a peer that answers garbage to the SSLRequest. -/
theorem end_and_fatal_clear_session_witness :
    (((endClient (clientFromBackend ⟨21, 4, []⟩ true)).connected = false ∧
      (endClient (clientFromBackend ⟨21, 4, []⟩ true)).session.pid = none ∧
      (endClient (clientFromBackend ⟨21, 4, []⟩ true)).session.secret_key = none ∧
      (endClient (clientFromBackend ⟨21, 4, []⟩ true)).session.tls = none ∧
      (endClient (clientFromBackend ⟨21, 4, []⟩ true)).session.server_params = []) ∧
    endClient (endClient (clientFromBackend ⟨21, 4, []⟩ true)) =
      endClient (clientFromBackend ⟨21, 4, []⟩ true) ∧
    (dispatchOperation 1 (fun _ => Except.ok (⟨22, 5, []⟩, true))
        (clientFromBackend ⟨21, 4, []⟩ true) Operation.terminateBackend).state =
      disconnectedClient ∧
    (connectClient ⟨true, false⟩ 1
        (fun _ => ⟨some 72, TlsUpgradeOutcome.ok, Except.ok ⟨1, 1, []⟩⟩)).1 =
      disconnectedClient) :=
  end_and_fatal_clear_session (clientFromBackend ⟨21, 4, []⟩ true) ⟨true, false⟩ 1
    (fun _ => ⟨some 72, TlsUpgradeOutcome.ok, Except.ok ⟨1, 1, []⟩⟩)
    (fun _ => Except.ok (⟨22, 5, []⟩, true)) ⟨21, 4, []⟩
    (ConnErr.tlsAvailability tlsAvailabilityMsg) rfl rfl rfl

/-- C10. For every connected client whose session was published by the
startup handshake over backend `b`, executing SELECT PG_BACKEND_PID()
over that connection returns exactly the value stored in
client.session.pid. -/
theorem session_pid_is_backend_pid (attempts : Nat)
    (env : Nat → Except ConnErr (Backend × Bool)) (c : Client) (b : Backend) (f : Bool)
    (hc : c.connected = true) (hb : c.backend = some b)
    (hs : c.session = startupSession b f) :
    (dispatchOperation attempts env c Operation.queryBackendPid).result =
      Except.ok b.pid ∧
    c.session.pid = some b.pid ∧
    (dispatchOperation attempts env c Operation.queryBackendPid).state = c := by
  refine ⟨?_, ?_, ?_⟩
  · simp [dispatchOperation, hc, hb, execOp]
  · rw [hs]; rfl
  · simp [dispatchOperation, hc, hb, execOp]

/-- Witness for C10: a client connected over backend pid 55. -/
theorem session_pid_is_backend_pid_witness :
    (dispatchOperation 1 (fun _ => Except.ok (⟨56, 8, []⟩, true))
        (clientFromBackend ⟨55, 7, []⟩ true) Operation.queryBackendPid).result =
      Except.ok (55 : Nat) ∧
    (clientFromBackend ⟨55, 7, []⟩ true).session.pid = some 55 ∧
    (dispatchOperation 1 (fun _ => Except.ok (⟨56, 8, []⟩, true))
        (clientFromBackend ⟨55, 7, []⟩ true) Operation.queryBackendPid).state =
      clientFromBackend ⟨55, 7, []⟩ true :=
  session_pid_is_backend_pid 1 (fun _ => Except.ok (⟨56, 8, []⟩, true))
    (clientFromBackend ⟨55, 7, []⟩ true) ⟨55, 7, []⟩ true rfl rfl rfl

end Postgres
